import Mathlib

/-!
Shallow embedding of `src/ppt_agent/skills/scripts/create_presentation.py`
(the research-to-visual extraction pipeline and the deck composer), together
with proofs of the stated properties.

Modelling conventions:
* Python strings are `String` / `List Char`; regex character classes are
  modelled over ASCII (`\s` is the ASCII whitespace set, `[A-Z]` with
  `re.IGNORECASE` is `Char.isAlpha`, `\d` is `Char.isDigit`).
* `re.findall` is modelled by trying an anchored match at every position from
  the left, emitting the match and resuming after the consumed text, exactly
  as the backtracking engine does for these patterns (all matches here are
  non-empty).  Where the greedy and lazy choices of a pattern are forced (a quantified
  class is disjoint from what must follow), the anchored matcher is written
  deterministically; the one place where genuine backtracking can change the
  result (the lazy `.*?` segments of patterns 2 and the medal search) is
  modelled with an explicit backtracking continuation (`seg`).
* Python floats appearing in the extractor only carry values parsed from
  `\d+(?:[,\.]\d+)?` matches; they are modelled exactly as (integer part,
  fraction-nonzero flag), which agrees with CPython except for fractions of
  sixteen or more digits where binary rounding could cross an integer
  boundary; no claim depends on such inputs.
* `datetime.now()` is an environment input, passed in as the `now` argument;
  file-system effects (`os.makedirs`, `prs.save`) are represented by the
  returned `filepath` field.
-/

set_option maxRecDepth 16384

namespace PptAgent

/-- ASCII whitespace: the Python regex class `\s` and the characters removed by
`str.strip()` (restricted to ASCII). -/
def isSpaceChar (c : Char) : Bool :=
  c == ' ' || c == '\t' || c == '\n' || c == '\r' || c == '\x0b' || c == '\x0c'

/-- Case-insensitive character comparison (ASCII), modelling `re.IGNORECASE`. -/
def ciEqChar (a b : Char) : Bool := a.toLower == b.toLower

/-- Python `str.strip()` on a character list. -/
def pyStrip (l : List Char) : List Char :=
  ((l.dropWhile isSpaceChar).reverse.dropWhile isSpaceChar).reverse

/-- Python `str.lower()` (ASCII). -/
def pyLower (l : List Char) : List Char := l.map Char.toLower

/-- Python `str.upper()` (ASCII). -/
def pyUpper (l : List Char) : List Char := l.map Char.toUpper

/-- Python `str.capitalize()`: first character upper-cased, the rest lower-cased. -/
def pyCapitalize : List Char → List Char
  | [] => []
  | c :: cs => c.toUpper :: cs.map Char.toLower

/-- Python `str.replace(pat, "")`: remove all non-overlapping occurrences of
`pat`, scanning left to right. -/
def pyRemoveAll (pat : List Char) : List Char → List Char
  | [] => []
  | c :: cs =>
    if h : pat ≠ [] ∧ pat.isPrefixOf (c :: cs) then
      pyRemoveAll pat ((c :: cs).drop pat.length)
    else c :: pyRemoveAll pat cs
termination_by l => l.length
decreasing_by
  · simp only [List.length_drop, List.length_cons]
    have h1 : 0 < pat.length := List.length_pos.mpr h.1
    omega
  · simp

/-- Python substring containment `pat in hay`. -/
def containsSub : List Char → List Char → Bool
  | hay, pat =>
    if pat.isPrefixOf hay then true
    else
      match hay with
      | [] => false
      | _ :: t => containsSub t pat

/-- Numeric value of a list of ASCII digits (value of a `\d+` capture). -/
def natOfDigits (l : List Char) : Nat :=
  l.foldl (fun n c => 10 * n + (c.toNat - 48)) 0

/-- Python `text.split("\n")` (keeps empty pieces; `""` yields `[""]`). -/
def splitLinesAux : List Char → List Char → List String
  | acc, [] => [String.mk acc.reverse]
  | acc, c :: cs =>
    if c == '\n' then String.mk acc.reverse :: splitLinesAux [] cs
    else splitLinesAux (c :: acc) cs

def splitLines (s : String) : List String := splitLinesAux [] s.data

/-- Value of `float(s.replace(",", ""))` for a `\d+(?:[,\.]\d+)?` match, represented as
(integer part, fraction-nonzero flag); `int()` of the float is the integer
part. -/
def pyNum (s : List Char) : Nat × Bool :=
  let s1 := s.filter (fun c => c != ',')
  let ip := s1.takeWhile Char.isDigit
  let frac := match s1.drop ip.length with
    | '.' :: t => t
    | _ => []
  (natOfDigits ip, frac.any (fun c => c != '0'))

/-- Driver for `re.findall`: try the anchored matcher at every position from the
left; on success emit the payload and resume after the consumed text, else
advance one character.  `fuel` is an upper bound on the number of steps
(the initial string length suffices since every step shortens the text). -/
def scanAll {α : Type} (f : List Char → Option (α × List Char)) : Nat → List Char → List α
  | 0, _ => []
  | _ + 1, [] => []
  | fuel + 1, c :: cs =>
    match f (c :: cs) with
    | some (a, rest) => a :: scanAll f fuel (if rest.length < cs.length + 1 then rest else cs)
    | none => scanAll f fuel cs

/-- Every payload emitted by `scanAll` comes from a successful anchored match. -/
theorem mem_scanAll {α : Type} (f : List Char → Option (α × List Char)) (x : α) :
    ∀ fuel s, x ∈ scanAll f fuel s → ∃ t r, f t = some (x, r) := by
  intro fuel
  induction fuel with
  | zero => intro s hx; simp [scanAll] at hx
  | succ n ih =>
    intro s hx
    match s with
    | [] => simp [scanAll] at hx
    | c :: cs =>
      rw [scanAll] at hx
      cases hf : f (c :: cs) with
      | none => rw [hf] at hx; exact ih cs hx
      | some ar =>
        rw [hf] at hx
        rcases List.mem_cons.mp hx with h | h
        · exact ⟨c :: cs, ar.2, by rw [hf, h]⟩
        · exact ih _ h

/-- Case-insensitive literal matcher: consume `pat` (up to case) from the head
of `s`, returning the consumed source characters and the remainder. -/
def ciLitCap : List Char → List Char → Option (List Char × List Char)
  | [], s => some ([], s)
  | _ :: _, [] => none
  | p :: ps, c :: cs =>
    if ciEqChar p c then
      match ciLitCap ps cs with
      | some (w, r) => some (c :: w, r)
      | none => none
    else none

/-- Case-insensitive literal matcher returning only the remainder. -/
def ciLit (pat s : List Char) : Option (List Char) :=
  match ciLitCap pat s with
  | some (_, r) => some r
  | none => none

theorem ciLitCap_length (pat : List Char) :
    ∀ s w r, ciLitCap pat s = some (w, r) → w.length = pat.length := by
  induction pat with
  | nil => intro s w r h; simp [ciLitCap] at h; simp [h.1]
  | cons p ps ih =>
    intro s w r h
    match s with
    | [] => simp [ciLitCap] at h
    | c :: cs =>
      rw [ciLitCap] at h
      by_cases hc : ciEqChar p c
      · rw [if_pos hc] at h
        cases hr : ciLitCap ps cs with
        | none => rw [hr] at h; simp at h
        | some wr =>
          rw [hr] at h
          simp at h
          have := ih cs wr.1 wr.2 (by rw [hr])
          simp [← h.1, this]
      · rw [if_neg hc] at h; simp at h

/-- The greedy optional trailing `s?` of the vocabulary words (IGNORECASE). -/
def optS : List Char → List Char × List Char
  | [] => ([], [])
  | c :: cs => if ciEqChar 's' c then ([c], cs) else ([], c :: cs)

/-! ### Pattern 1: `([A-Z][A-Za-z\s&]+):\s*(\d+)\s*(?:total\s+)?medals?` (IGNORECASE)

All greedy choices of this pattern are forced: every quantified class is
disjoint from the literal that must follow it (`:` is not in `[A-Za-z\s&]`,
a digit is not whitespace, `t`/`m` are not whitespace), so each quantifier
consumes its maximal run and no backtracking into it can succeed.  The one
genuine alternative — taking or skipping the optional `(?:total\s+)` — is
tried greedily (with the group first), as the engine does. -/

def p1Class (c : Char) : Bool := c.isAlpha || isSpaceChar c || c == '&'

/-- Matcher for `medals?` (IGNORECASE), returning the remainder after the match. -/
def p1MedalLit (r : List Char) : Option (List Char) :=
  match ciLit "medal".data r with
  | some r1 =>
    match r1 with
    | c :: cs => if ciEqChar 's' c then some cs else some (c :: cs)
    | [] => some []
  | none => none

/-- Matcher for `(?:total\s+)?medals?` (IGNORECASE): try the optional group first, fall
back to the bare literal. -/
def p1Medal (r4 : List Char) : Option (List Char) :=
  match ciLit "total".data r4 with
  | some r5 =>
    match r5 with
    | c :: cs =>
      if isSpaceChar c then
        match p1MedalLit ((c :: cs).dropWhile isSpaceChar) with
        | some rest => some rest
        | none => p1MedalLit r4
      else p1MedalLit r4
    | [] => p1MedalLit r4
  | none => p1MedalLit r4

/-- Anchored attempt of pattern 1; payload is (group 1, the digits of group 2). -/
def p1MatchAt : List Char → Option ((List Char × List Char) × List Char)
  | [] => none
  | c :: cs =>
    if c.isAlpha then
      let run := cs.takeWhile p1Class
      if run = [] then none
      else
        match cs.drop run.length with
        | ':' :: r2 =>
          let r3 := r2.dropWhile isSpaceChar
          let ds := r3.takeWhile Char.isDigit
          if ds = [] then none
          else
            match p1Medal ((r3.drop ds.length).dropWhile isSpaceChar) with
            | some rest => some ((c :: run, ds), rest)
            | none => none
        | _ => none
    else none

/-- Source lines 29-34: the matches of pattern 1 filtered to labels whose
stripped length is strictly between 1 and 30. -/
def pattern1Facts (text : List Char) : List (String × Nat) :=
  (scanAll p1MatchAt text.length text).filterMap fun m =>
    let label_clean := pyStrip m.1
    if 1 < label_clean.length ∧ label_clean.length < 30 then
      some (String.mk label_clean, natOfDigits m.2)
    else none

/-! ### Pattern 2: `([A-Z][A-Za-z\s]+).*?(\d+)\s+gold.*?(\d+)\s+silver.*?(\d+)\s+bronze`

The lazy `.*?` segments need real backtracking: on failure of everything to
the right, the engine extends `.*?` by one (non-newline) character and
retries.  `seg` implements exactly that.  Within `(\d+)\s+<lit>`, the greedy
choices are again forced (a shorter digit run leaves a digit where `\s+`
must match).  Backtracking into group 1 is provably irrelevant: the group-1
class `[A-Za-z\s]` contains no digit, so no `(\d+)` can start strictly
inside the maximal run, and shortening the run only makes the subsequent
lazy search start earlier over characters that themselves cannot begin a
`(\d+)\s+gold` match — the search either hits the same blocking newline or
reaches the same first match.  Hence the matcher commits to the maximal
group-1 run. -/

def p2Class (c : Char) : Bool := c.isAlpha || isSpaceChar c

/-- Matcher for `(\d+)\s+<lit>` anchored at the head (IGNORECASE): greedy digits, at least
one whitespace, then the literal; returns the digits and the remainder. -/
def numLitAt (lit : List Char) (s : List Char) : Option (List Char × List Char) :=
  let ds := s.takeWhile Char.isDigit
  if ds = [] then none
  else
    match s.drop ds.length with
    | c :: cs =>
      if isSpaceChar c then
        match ciLit lit ((c :: cs).dropWhile isSpaceChar) with
        | some rest => some (ds, rest)
        | none => none
      else none
    | [] => none

/-- Lazy segment `.*?(\d+)\s+<lit>` with continuation `k`: try the anchored
`(\d+)\s+<lit>` here, run the continuation on success, and on any failure
let `.*?` absorb one more character — unless it is a newline, which `.`
cannot match. -/
def seg {R : Type} (lit : List Char) (k : List Char → List Char → Option R) :
    List Char → Option R
  | [] => none
  | c :: cs =>
    match numLitAt lit (c :: cs) with
    | some (ds, rest) =>
      match k ds rest with
      | some res => some res
      | none => if c == '\n' then none else seg lit k cs
    | none => if c == '\n' then none else seg lit k cs

/-- Anchored attempt of pattern 2; payload is (group 1, gold, silver, bronze digits). -/
def p2MatchAt : List Char → Option ((List Char × List Char × List Char × List Char) × List Char)
  | [] => none
  | c :: cs =>
    if c.isAlpha then
      let run := cs.takeWhile p2Class
      if run = [] then none
      else
        seg "gold".data (fun g rg =>
          seg "silver".data (fun s rs =>
            seg "bronze".data (fun b rb =>
              some ((c :: run, g, s, b), rb)) rs) rg) (cs.drop run.length)
    else none

/-- Source lines 38-45: one fact per pattern-2 match, value = gold+silver+bronze,
kept when the stripped country is non-empty and the total is positive. -/
def pattern2Facts (text : List Char) : List (String × Nat) :=
  (scanAll p2MatchAt text.length text).filterMap fun m =>
    let country := pyStrip m.1
    let total := natOfDigits m.2.1 + natOfDigits m.2.2.1 + natOfDigits m.2.2.2
    if country ≠ [] ∧ 0 < total then some (String.mk country, total) else none

/-! ### Pattern 3: `(\d+(?:[,\.]\d+)?)\s*([A-Z]{1,3})?[\s:]*(athletes?|countries?|nations?|events?|sports?|participants?|capacity|billion|million|thousand|GW|MW|TW|vehicles?|sales?)`

Greedy choices on the number and the whitespace runs are forced as before
(giving back a digit or whitespace character leaves it where only letters
can match).  The optional unit group `([A-Z]{1,3})?` is tried greedily with
three, two, then one letter, then skipped, each followed by `[\s:]*` and the
vocabulary alternation (first alternative wins); that is the backtracking
order of the engine.  Shortening the leading `\s*` instead of skipping the
unit reaches the same vocabulary position via `[\s:]*` and cannot produce a
different outcome. -/

/-- Matcher for `\d+(?:[,\.]\d+)?` anchored; returns the matched characters and remainder. -/
def numToken (s : List Char) : Option (List Char × List Char) :=
  let ds := s.takeWhile Char.isDigit
  if ds = [] then none
  else
    let r1 := s.drop ds.length
    match r1 with
    | c :: cs =>
      if c == ',' || c == '.' then
        let fs := cs.takeWhile Char.isDigit
        if fs = [] then some (ds, r1) else some (ds ++ c :: fs, cs.drop fs.length)
      else some (ds, r1)
    | [] => some (ds, [])

/-- The vocabulary alternation, in source order; the flag marks a trailing `s?`. -/
def vocabRules : List (String × Bool) :=
  [("athlete", true), ("countrie", true), ("nation", true), ("event", true),
   ("sport", true), ("participant", true), ("capacity", false), ("billion", false),
   ("million", false), ("thousand", false), ("GW", false), ("MW", false),
   ("TW", false), ("vehicle", true), ("sale", true)]

def vocabGo : List (String × Bool) → List Char → Option (List Char × List Char)
  | [], _ => none
  | (w, pl) :: rs, s =>
    match ciLitCap w.data s with
    | some (cap, rest) =>
      if pl then
        let p := optS rest
        some (cap ++ p.1, p.2)
      else some (cap, rest)
    | none => vocabGo rs s

def vocabMatch (s : List Char) : Option (List Char × List Char) := vocabGo vocabRules s

/-- Matcher for `[\s:]*` followed by the vocabulary group, given the unit capture. -/
def p3AfterUnit (unit r4 : List Char) : Option ((List Char × List Char) × List Char) :=
  match vocabMatch (r4.dropWhile (fun c => isSpaceChar c || c == ':')) with
  | some (w, r6) => some ((unit, w), r6)
  | none => none

/-- One greedy attempt of `([A-Z]{1,3})` with exactly `n` letters. -/
def p3UnitTry (n : Nat) (r3 : List Char) : Option ((List Char × List Char) × List Char) :=
  if (r3.take n).length = n ∧ (r3.take n).all Char.isAlpha then
    p3AfterUnit (r3.take n) (r3.drop n)
  else none

/-- Greedy `([A-Z]{1,3})?`, then `[\s:]*` and the vocabulary group: try three,
two, one letters, then skip the optional group. -/
def p3Unit (r3 : List Char) : Option ((List Char × List Char) × List Char) :=
  match p3UnitTry 3 r3 with
  | some x => some x
  | none =>
    match p3UnitTry 2 r3 with
    | some x => some x
    | none =>
      match p3UnitTry 1 r3 with
      | some x => some x
      | none => p3AfterUnit [] r3

/-- Anchored attempt of pattern 3; payload is (number, unit, vocabulary word). -/
def p3MatchAt (s : List Char) : Option ((List Char × List Char × List Char) × List Char) :=
  match numToken s with
  | some (num, r1) =>
    match p3Unit (r1.dropWhile isSpaceChar) with
    | some ((u, w), rest) => some ((num, u, w), rest)
    | none => none
  | none => none

/-- Source lines 48-62: first 10 matches of pattern 3.  When the unit is `TW`
the source computes `clean_value * 1000` and a `(GW)` label into local
variables but the `append` lives only in the `elif` branch, so nothing is
emitted; otherwise the fact is kept when `1 <= clean_value < 1000000`
(equivalently on the integer part, since the fraction is in `[0,1)`). -/
def pattern3Facts (text : List Char) : List (String × Nat) :=
  ((scanAll p3MatchAt text.length text).take 10).filterMap fun m =>
    let value := pyNum m.1
    let unit := m.2.1
    let label := m.2.2
    if unit ≠ [] ∧ pyUpper unit = "TW".data then none
    else if 1 ≤ value.1 ∧ value.1 < 1000000 then
      some (String.mk (pyCapitalize label), value.1)
    else none

/-! ### Pattern 4: `([A-Z][A-Za-z\s]+|20\d{2}):\s*(?:\$|€)?(\d+(?:[,\.]\d+)?)\s*(billion|million|%)?`

The two group-1 alternatives are disjoint (a letter vs the digit `2`), the
quantified runs are forced as before, the optional currency symbol and unit
group are deterministic single attempts.  When the unit group fails the
match still ends after the trailing `\s*`, which the engine has consumed. -/

/-- Anchored attempt of pattern 4; payload is (group 1, number, unit). -/
def p4MatchAt : List Char → Option ((List Char × List Char × List Char) × List Char)
  | [] => none
  | c :: cs =>
    let g1r : Option (List Char × List Char) :=
      if c.isAlpha then
        let run := cs.takeWhile p2Class
        if run = [] then none
        else
          match cs.drop run.length with
          | ':' :: r => some (c :: run, r)
          | _ => none
      else if c == '2' then
        match cs with
        | d0 :: d1 :: d2 :: r =>
          if d0 == '0' && d1.isDigit && d2.isDigit then
            match r with
            | ':' :: r2 => some ([c, d0, d1, d2], r2)
            | _ => none
          else none
        | _ => none
      else none
    match g1r with
    | some (g1, r1) =>
      let r2 := r1.dropWhile isSpaceChar
      let r3 := match r2 with
        | x :: xs => if x == '$' || x == '€' then xs else r2
        | [] => r2
      match numToken r3 with
      | some (num, r4) =>
        let r5 := r4.dropWhile isSpaceChar
        let unitRes : List Char × List Char :=
          match ciLitCap "billion".data r5 with
          | some (w, rr) => (w, rr)
          | none =>
            match ciLitCap "million".data r5 with
            | some (w, rr) => (w, rr)
            | none =>
              match r5 with
              | '%' :: rr => (['%'], rr)
              | _ => ([], r5)
        some ((g1, num, unitRes.1), unitRes.2)
      | none => none
    | none => none

/-- Source lines 65-77: first 10 matches of pattern 4; relabel with ` ($B)` /
` (%)` when a unit is present; keep when the float value is positive and the
stripped label is longer than one character. -/
def pattern4Facts (text : List Char) : List (String × Nat) :=
  ((scanAll p4MatchAt text.length text).take 10).filterMap fun m =>
    let value := pyNum m.2.1
    let unit := m.2.2
    let label :=
      if unit ≠ [] ∧ containsSub (pyLower unit) "billion".data then
        pyStrip m.1 ++ " ($B)".data
      else if unit ≠ [] ∧ unit.contains '%' then
        pyStrip m.1 ++ " (%)".data
      else m.1
    let labelF := pyStrip label
    if (0 < value.1 ∨ value.2 = true) ∧ 1 < labelF.length then
      some (String.mk labelF, value.1)
    else none

/-! ### Deduplication and the extractor -/

/-- Source lines 79-87: keep the first occurrence per exact label string,
dropping non-positive values (a dropped value does not reserve its label). -/
def dedupFirst : List String → List (String × Nat) → List (String × Nat)
  | _, [] => []
  | seen, (l, v) :: rest =>
    if l ∉ seen ∧ 0 < v then (l, v) :: dedupFirst (l :: seen) rest
    else dedupFirst seen rest

/-- The concatenated candidate facts of the four pattern families, in order. -/
def candidateFacts (text : List Char) : List (String × Nat) :=
  pattern1Facts text ++ pattern2Facts text ++ pattern3Facts text ++ pattern4Facts text

/-- Model of `extract_numbers_from_text` (source lines 20-87). -/
def extract_numbers_from_text (text : String) : List (String × Nat) :=
  (dedupFirst [] (candidateFacts text.data)).take 8

/-! ### The medal-type search and the visual planner -/

/-- Anchored attempt of `(\d+)\s+gold.*?(\d+)\s+silver.*?(\d+)\s+bronze`
(IGNORECASE); the leading `(\d+)` is anchored at the position, the two lazy
segments backtrack as in pattern 2. -/
def medalMatchAt (s : List Char) : Option (Nat × Nat × Nat) :=
  match numLitAt "gold".data s with
  | some (g, rg) =>
    seg "silver".data (fun sv rs =>
      seg "bronze".data (fun b _ =>
        some (natOfDigits g, natOfDigits sv, natOfDigits b)) rs) rg
  | none => none

/-- Model of the `re.search` on `(\d+)\s+gold.*?(\d+)\s+silver.*?(\d+)\s+bronze`
with IGNORECASE (source line 262): the leftmost match. -/
def medalSearch : List Char → Option (Nat × Nat × Nat)
  | [] => none
  | c :: cs =>
    match medalMatchAt (c :: cs) with
    | some r => some r
    | none => medalSearch cs

/-- Python truthiness of the optional `research_data` string: `None` and the
empty string are falsy. -/
def truthy : Option String → Bool
  | none => false
  | some s => !(s == "")

def rdText : Option String → String
  | none => ""
  | some s => s

structure Visuals where
  bar_charts : List (String × List (String × Nat))
  pie_charts : List (String × List (String × Nat))
  tables : List (String × List (List String))
  suggestions : List String
deriving DecidableEq

def emptyVisuals : Visuals := ⟨[], [], [], []⟩

/-- One step of the visual-suggestions state machine (source lines 234-247);
the state is (collected suggestions, inside-the-visual-section flag). -/
def suggestLine (acc : List String × Bool) (raw : String) : List String × Bool :=
  let line := pyStrip raw.data
  if containsSub line "**Visual Suggestions:**".data ||
     containsSub line "**Visualizations:**".data then
    (acc.1, true)
  else if acc.2 then
    if "**".data.isPrefixOf line ∧ "**".data.isSuffixOf line then (acc.1, false)
    else if "-".data.isPrefixOf line then
      let sug := pyStrip (line.dropWhile (fun c => c == '-' || c == ' '))
      if sug ≠ [] then (acc.1 ++ [String.mk sug], true) else (acc.1, true)
    else (acc.1, true)
  else (acc.1, false)

def suggestionsOf (text : String) : List String :=
  ((splitLines text).foldl suggestLine ([], false)).1

/-- The five summary words of source lines 255 and 274. -/
def summaryWords : List String := ["athletes", "countries", "events", "sports", "participants"]

def isSummaryLabel (l : String) : Bool :=
  summaryWords.any fun w => containsSub (pyLower l.data) w.data

/-- Source lines 253-258: one bar chart over the non-summary facts when there
are at least two of them. -/
def plannerBars (chart_data : List (String × Nat)) : List (String × List (String × Nat)) :=
  let country_data := chart_data.filter fun p => !isSummaryLabel p.1
  if 2 ≤ country_data.length then [("Medal Count by Country", country_data.take 8)] else []

/-- Source lines 260-270: one pie chart from the first raw-text medal triple. -/
def plannerPies (text : String) : List (String × List (String × Nat)) :=
  match medalSearch text.data with
  | some gsb =>
    [("Medal Type Distribution",
      [("Gold", gsb.1), ("Silver", gsb.2.1), ("Bronze", gsb.2.2)])]
  | none => []

/-- Source lines 272-281: one table over the summary facts when there are at
least two, with a header row and at most five data rows. -/
def plannerTables (chart_data : List (String × Nat)) : List (String × List (List String)) :=
  let summary_stats := chart_data.filter fun p => isSummaryLabel p.1
  if 2 ≤ summary_stats.length then
    [("Event Statistics",
      ["Metric", "Count"] :: (summary_stats.take 5).map fun p => [p.1, toString p.2])]
  else []

/-- Model of `parse_research_for_visuals` (source lines 211-283).  The bar/pie/table
extraction all sits under `if chart_data:`, so an empty extraction yields
only (possibly) suggestions. -/
def parse_research_for_visuals (research_data : Option String) : Visuals :=
  if !truthy research_data then emptyVisuals
  else
    let text := rdText research_data
    let chart_data := extract_numbers_from_text text
    if chart_data = [] then { emptyVisuals with suggestions := suggestionsOf text }
    else ⟨plannerBars chart_data, plannerPies text, plannerTables chart_data, suggestionsOf text⟩

/-! ### Slides and the deck composer -/

inductive ChartSpec
  | bar (data : List (String × Nat))
  | pie (data : List (String × Nat))
  | table (rows : List (List String))
deriving DecidableEq

/-- One rendered slide: the text of the title shape, the first text of the
body text frame, the added paragraphs with their indent levels, and an optional
chart/table. -/
structure Slide where
  title : String
  primary : String
  paras : List (String × Nat)
  chart : Option ChartSpec
deriving DecidableEq

/-- Model of `create_bar_chart_slide` (source lines 90-124): no slide is added for
fewer than two data points. -/
def create_bar_chart_slide (title : String) (chart_data_list : List (String × Nat)) :
    Option Slide :=
  if chart_data_list.length < 2 then none
  else some ⟨title, "", [], some (ChartSpec.bar chart_data_list)⟩

/-- Model of `create_pie_chart_slide` (source lines 127-167). -/
def create_pie_chart_slide (title : String) (chart_data_list : List (String × Nat)) :
    Option Slide :=
  if chart_data_list.length < 2 then none
  else some ⟨title, "", [], some (ChartSpec.pie chart_data_list)⟩

/-- Model of `create_table_slide` (source lines 170-208). -/
def create_table_slide (title : String) (table_data : List (List String)) : Option Slide :=
  if table_data.length < 2 then none
  else some ⟨title, "", [], some (ChartSpec.table table_data)⟩

/-- Source line 360: the stripped, non-empty lines of the research text that
do not start with `#`. -/
def researchLines (text : String) : List String :=
  (splitLines text).filterMap fun raw =>
    let line := pyStrip raw.data
    if line ≠ [] ∧ ¬ "#".data.isPrefixOf line then some (String.mk line) else none

/-- Source line 368: `.replace("**","").replace("- ","").replace("* ","")`. -/
def cleanFindingsLine (line : List Char) : List Char :=
  pyRemoveAll "* ".data (pyRemoveAll "- ".data (pyRemoveAll "**".data line))

/-- Source lines 364-370: one added paragraph of the findings slide. -/
def findingsPara (line : String) : Option (String × Nat) :=
  let l := line.data
  if line ≠ "" ∧ line ≠ "**" ∧ ¬ "**".data.isPrefixOf l then
    some (String.mk (cleanFindingsLine l),
      if "-".data.isPrefixOf l ∨ "*".data.isPrefixOf l then 0 else 1)
  else none

/-- The "Key Research Findings" slide (source lines 349-372). -/
def mkFindingsSlide (text : String) : Slide :=
  match researchLines text with
  | [] => ⟨"Key Research Findings",
           "Research findings incorporated throughout presentation", [], none⟩
  | h :: t => ⟨"Key Research Findings", h, (t.take 7).filterMap findingsPara, none⟩

/-- Source line 429: the section-label phrases rejected as bullet starts. -/
def headerPhrases : List String :=
  ["key findings", "visual suggestions", "sources", "key insight"]

/-- Strip one leading bullet marker if present (one step of source lines 421-423). -/
def stripMarker (m : List Char) (l : List Char) : List Char :=
  if m.isPrefixOf l then l.drop m.length else l

/-- Source lines 408-432: the flat-bullet extraction applied to one line. -/
def flatBulletOfLine (raw : String) : Option String :=
  let line := pyStrip raw.data
  if line = [] ∨ "#".data.isPrefixOf line ∨ "http".data.isPrefixOf line then none
  else if "**".data.isPrefixOf line ∨ "**".data.isSuffixOf line then none
  else
    let cleaned := pyStrip (stripMarker "• ".data (stripMarker "* ".data (stripMarker "- ".data line)))
    if 15 < cleaned.length ∧
       ¬ (headerPhrases.any fun p => p.data.isPrefixOf (pyLower cleaned)) ∧
       ¬ "http".data.isPrefixOf cleaned ∧
       ¬ (cleaned.take 30).contains ':' then
      some (String.mk cleaned)
    else none

/-- Source lines 403-432: the flat research bullets. -/
def flatBullets (text : String) : List String :=
  (splitLines text).filterMap flatBulletOfLine

/-- Source lines 458-462: the slice of bullets for 1-indexed content slide `i`. -/
def contentSlideBullets (bullets : List String) (num_slides i : Nat) : List String :=
  let bullets_per_slide := max 3 (bullets.length / num_slides)
  let start_idx := (i - 1) * bullets_per_slide
  let end_idx := min (start_idx + bullets_per_slide) bullets.length
  (bullets.take end_idx).drop start_idx

/-- One regular content slide (source lines 440-481); `research` is the
truthiness of `research_data`. -/
def mkContentSlide (topic : String) (research : Bool) (bullets : List String)
    (num_slides i : Nat) : Slide :=
  let title := topic ++ " - Point " ++ toString i
  if research ∧ bullets ≠ [] then
    match contentSlideBullets bullets num_slides i with
    | [] => ⟨title, "Additional insights related to " ++ topic, [], none⟩
    | b :: bs => ⟨title, b, bs.map (fun x => (x, 0)), none⟩
  else
    ⟨title, "Key concept " ++ toString i ++ " related to " ++ topic,
      (List.range 3).map (fun j =>
        ("Supporting detail " ++ toString (j + 1) ++ " for concept " ++ toString i, 1)),
      none⟩

/-- The `for i in range(1, num_slides + 1)` loop of source lines 440-481. -/
def contentSlides (topic : String) (research : Bool) (bullets : List String)
    (num_slides : Nat) : List Slide :=
  (List.range num_slides).map fun j => mkContentSlide topic research bullets num_slides (j + 1)

/-- Source lines 485-486: keep alphanumerics and whitespace, replace the rest
by `_`, then spaces by `_`, then truncate to 50 characters. -/
def sanitizeTopic (topic : String) : String :=
  String.mk (((topic.data.map fun c =>
    if c.isAlphanum || isSpaceChar c then c else '_').map fun c =>
      if c == ' ' then '_' else c).take 50)

/-- The result dictionary of `create_powerpoint`; `slides` is the ordered
deck handed to the document writer (`prs.save`). -/
structure PptResult where
  success : Bool
  error : Option String
  filepath : Option String
  total_slides : Option Nat
  message : Option String
  slides : List Slide
deriving DecidableEq

def errResult (msg : String) : PptResult := ⟨false, some msg, none, none, none, []⟩

/-- Model of `create_powerpoint` (source lines 286-509), where `now` stands for the
formatted `datetime.now()` strings, an environment input. -/
def create_powerpoint (topic : String) (num_slides : Nat) (include_title_slide : Bool)
    (output_dir : String) (research_data : Option String) (now : String) : PptResult :=
  if num_slides < 1 ∨ 20 < num_slides then errResult "num_slides must be between 1 and 20"
  else if topic = "" ∨ pyStrip topic.data = [] then errResult "topic cannot be empty"
  else
    let titleSlides : List Slide :=
      if include_title_slide then
        [⟨topic,
          "Generated on " ++ now ++
            (if truthy research_data then " | Research-Enhanced Presentation" else ""),
          [], none⟩]
      else []
    let findingsSlides : List Slide :=
      if truthy research_data then [mkFindingsSlide (rdText research_data)] else []
    let visuals :=
      if truthy research_data then parse_research_for_visuals research_data else emptyVisuals
    let barSlides := visuals.bar_charts.filterMap fun p => create_bar_chart_slide p.1 p.2
    let pieSlides := visuals.pie_charts.filterMap fun p => create_pie_chart_slide p.1 p.2
    let tableSlides := visuals.tables.filterMap fun p => create_table_slide p.1 p.2
    let research_bullets :=
      if truthy research_data then flatBullets (rdText research_data) else []
    let content := contentSlides topic (truthy research_data) research_bullets num_slides
    let total := num_slides + (if include_title_slide then 1 else 0)
    let filepath := output_dir ++ "/" ++ sanitizeTopic topic ++ "_" ++ now ++ ".pptx"
    { success := true
      error := none
      filepath := some filepath
      total_slides := some total
      message := some ("PowerPoint presentation created successfully: " ++ filepath ++
        " (Total slides: " ++ toString total ++ ")")
      slides := titleSlides ++ findingsSlides ++ barSlides ++ pieSlides ++ tableSlides ++ content }

/-- The body bullets of a slide: the primary text followed by the added
texts of the added paragraphs. -/
def slideBody (s : Slide) : List String := s.primary :: s.paras.map Prod.fst

/-- The number of visual artifacts emitted by the visual planner. -/
def visualArtifactCount (research_data : Option String) : Nat :=
  (parse_research_for_visuals research_data).bar_charts.length +
  (parse_research_for_visuals research_data).pie_charts.length +
  (parse_research_for_visuals research_data).tables.length

/-! ### Lemmas about deduplication -/

theorem dedupFirst_mem_pos (p : String × Nat) :
    ∀ (l : List (String × Nat)) (seen : List String), p ∈ dedupFirst seen l → 0 < p.2 := by
  intro l
  induction l with
  | nil => intro seen h; simp [dedupFirst] at h
  | cons a rest ih =>
    intro seen h
    obtain ⟨la, va⟩ := a
    rw [dedupFirst] at h
    by_cases hc : la ∉ seen ∧ 0 < va
    · rw [if_pos hc] at h
      rcases List.mem_cons.mp h with h1 | h1
      · subst h1; exact hc.2
      · exact ih _ h1
    · rw [if_neg hc] at h; exact ih _ h

theorem dedupFirst_mem_find (p : String × Nat) :
    ∀ (l : List (String × Nat)) (seen : List String), p ∈ dedupFirst seen l →
      p.1 ∉ seen ∧ l.find? (fun q => q.1 == p.1 && decide (0 < q.2)) = some p := by
  intro l
  induction l with
  | nil => intro seen h; simp [dedupFirst] at h
  | cons a rest ih =>
    intro seen h
    obtain ⟨la, va⟩ := a
    rw [dedupFirst] at h
    by_cases hc : la ∉ seen ∧ 0 < va
    · rw [if_pos hc] at h
      rcases List.mem_cons.mp h with h1 | h1
      · subst h1
        refine ⟨hc.1, ?_⟩
        rw [List.find?_cons_of_pos]
        simp [hc.2]
      · have hih := ih _ h1
        have hne : p.1 ≠ la := fun he => hih.1 (by rw [he]; exact List.mem_cons_self _ _)
        refine ⟨fun hs => hih.1 (List.mem_cons_of_mem _ hs), ?_⟩
        rw [List.find?_cons_of_neg]
        · exact hih.2
        · simp only [Bool.and_eq_true, beq_iff_eq, decide_eq_true_eq]
          exact fun hcon => hne hcon.1.symm
    · rw [if_neg hc] at h
      have hih := ih _ h
      refine ⟨hih.1, ?_⟩
      by_cases he : la = p.1
      · have hla : la ∉ seen := by rw [he]; exact hih.1
        have hv : ¬ 0 < va := fun hv => hc ⟨hla, hv⟩
        rw [List.find?_cons_of_neg]
        · exact hih.2
        · simp only [Bool.and_eq_true, beq_iff_eq, decide_eq_true_eq]
          exact fun hcon => hv hcon.2
      · rw [List.find?_cons_of_neg]
        · exact hih.2
        · simp only [Bool.and_eq_true, beq_iff_eq, decide_eq_true_eq]
          exact fun hcon => he hcon.1

theorem dedupFirst_nodup :
    ∀ (l : List (String × Nat)) (seen : List String),
      ((dedupFirst seen l).map Prod.fst).Nodup := by
  intro l
  induction l with
  | nil => intro seen; simp [dedupFirst]
  | cons a rest ih =>
    intro seen
    obtain ⟨la, va⟩ := a
    rw [dedupFirst]
    by_cases hc : la ∉ seen ∧ 0 < va
    · rw [if_pos hc]
      simp only [List.map_cons, List.nodup_cons]
      refine ⟨?_, ih _⟩
      intro hmem
      rcases List.mem_map.mp hmem with ⟨p, hp, hfst⟩
      have := (dedupFirst_mem_find p rest (la :: seen) hp).1
      exact this (by rw [hfst]; exact List.mem_cons_self _ _)
    · rw [if_neg hc]; exact ih _

theorem dedupFirst_sublist :
    ∀ (l : List (String × Nat)) (seen : List String), (dedupFirst seen l).Sublist l := by
  intro l
  induction l with
  | nil => intro seen; simp [dedupFirst]
  | cons a rest ih =>
    intro seen
    obtain ⟨la, va⟩ := a
    rw [dedupFirst]
    by_cases hc : la ∉ seen ∧ 0 < va
    · rw [if_pos hc]; exact (ih _).cons₂ _
    · rw [if_neg hc]; exact (ih _).cons _

/-- Claim C3: for every input text the fact extractor returns at most 8
pairs, every returned value is strictly positive, labels are pairwise
distinct, and each returned pair is the first positive-valued candidate
carrying its label (exact string match, first occurrence wins). -/
theorem extract_facts_invariants (text : String) :
    (extract_numbers_from_text text).length ≤ 8 ∧
    (∀ p, p ∈ extract_numbers_from_text text →
      0 < p.2 ∧
      (candidateFacts text.data).find? (fun q => q.1 == p.1 && decide (0 < q.2)) = some p) ∧
    ((extract_numbers_from_text text).map Prod.fst).Nodup := by
  refine ⟨?_, ?_, ?_⟩
  · rw [extract_numbers_from_text]; exact List.length_take_le _ _
  · intro p hp
    have hp1 : p ∈ dedupFirst [] (candidateFacts text.data) := by
      rw [extract_numbers_from_text] at hp
      exact List.take_subset _ _ hp
    exact ⟨dedupFirst_mem_pos p _ _ hp1, (dedupFirst_mem_find p _ _ hp1).2⟩
  · rw [extract_numbers_from_text, List.map_take]
    exact (dedupFirst_nodup _ _).sublist (List.take_sublist _ _)

theorem extract_facts_invariants_witness :
    (extract_numbers_from_text "USA: 10 medals").length ≤ 8 ∧
    (0 < (("USA", 10) : String × Nat).2 ∧
      (candidateFacts "USA: 10 medals".data).find?
        (fun q => q.1 == (("USA", 10) : String × Nat).1 && decide (0 < q.2)) =
          some ("USA", 10)) ∧
    ((extract_numbers_from_text "USA: 10 medals").map Prod.fst).Nodup :=
  ⟨(extract_facts_invariants "USA: 10 medals").1,
   (extract_facts_invariants "USA: 10 medals").2.1 ("USA", 10) (by decide),
   (extract_facts_invariants "USA: 10 medals").2.2⟩

/-! ### Label lemmas for the four pattern families -/

theorem stringMk_length (l : List Char) : (String.mk l).length = l.length := rfl

theorem stringMk_ne_empty (l : List Char) (h : l ≠ []) : String.mk l ≠ "" := by
  intro hc
  apply h
  have := congrArg String.data hc
  simpa using this

theorem pyCapitalize_ne_nil (l : List Char) (h : l ≠ []) : pyCapitalize l ≠ [] := by
  cases l with
  | nil => exact absurd rfl h
  | cons c cs => simp [pyCapitalize]

theorem vocabGo_nonempty :
    ∀ (rules : List (String × Bool)) (s w r : List Char),
      vocabGo rules s = some (w, r) → (∀ q ∈ rules, q.1 ≠ "") → w ≠ [] := by
  intro rules
  induction rules with
  | nil => intro s w r h _; simp [vocabGo] at h
  | cons q rs ih =>
    intro s w r h hr
    obtain ⟨wd, pl⟩ := q
    rw [vocabGo] at h
    cases hcap : ciLitCap wd.data s with
    | none =>
      rw [hcap] at h
      exact ih s w r h (fun q hq => hr q (List.mem_cons_of_mem _ hq))
    | some capr =>
      rw [hcap] at h
      obtain ⟨cap, rest⟩ := capr
      have hlen : cap.length = wd.data.length := ciLitCap_length _ _ _ _ hcap
      have hwd : wd ≠ "" := hr (wd, pl) (List.mem_cons_self _ _)
      have hcapne : cap ≠ [] := by
        intro hc
        apply hwd
        have h0 : wd.data.length = 0 := by rw [← hlen, hc]; rfl
        have h1 : wd.data = [] := List.length_eq_zero.mp h0
        exact String.ext (by simp [h1])
      dsimp only at h
      split at h
      · rw [Option.some.injEq, Prod.mk.injEq] at h
        rw [← h.1]
        intro hc
        exact hcapne (List.append_eq_nil.mp hc).1
      · rw [Option.some.injEq, Prod.mk.injEq] at h
        rw [← h.1]; exact hcapne

theorem p3AfterUnit_word (u r4 : List Char) (x : (List Char × List Char) × List Char)
    (h : p3AfterUnit u r4 = some x) : x.1.2 ≠ [] := by
  rw [p3AfterUnit] at h
  cases hv : vocabMatch (r4.dropWhile fun c => isSpaceChar c || c == ':') with
  | none => rw [hv] at h; simp at h
  | some wr =>
    rw [hv] at h
    obtain ⟨w, r6⟩ := wr
    have hx : x = ((u, w), r6) := ((Option.some.injEq _ _).mp h).symm
    rw [hx]
    exact vocabGo_nonempty vocabRules _ w r6 hv (by decide)

theorem p3UnitTry_word (n : Nat) (r3 : List Char) (x : (List Char × List Char) × List Char)
    (h : p3UnitTry n r3 = some x) : x.1.2 ≠ [] := by
  rw [p3UnitTry] at h
  split at h
  · exact p3AfterUnit_word _ _ _ h
  · simp at h

theorem p3Unit_word (r3 : List Char) (x : (List Char × List Char) × List Char)
    (h : p3Unit r3 = some x) : x.1.2 ≠ [] := by
  rw [p3Unit] at h
  cases h3 : p3UnitTry 3 r3 with
  | some y =>
    rw [h3] at h
    dsimp only at h
    rw [Option.some.injEq] at h
    rw [← h]
    exact p3UnitTry_word 3 r3 y h3
  | none =>
    rw [h3] at h
    dsimp only at h
    cases h2 : p3UnitTry 2 r3 with
    | some y =>
      rw [h2] at h
      dsimp only at h
      rw [Option.some.injEq] at h
      rw [← h]
      exact p3UnitTry_word 2 r3 y h2
    | none =>
      rw [h2] at h
      dsimp only at h
      cases h1 : p3UnitTry 1 r3 with
      | some y =>
        rw [h1] at h
        dsimp only at h
        rw [Option.some.injEq] at h
        rw [← h]
        exact p3UnitTry_word 1 r3 y h1
      | none =>
        rw [h1] at h
        dsimp only at h
        exact p3AfterUnit_word _ _ _ h

theorem p3MatchAt_word (s : List Char) (m : List Char × List Char × List Char)
    (r : List Char) (h : p3MatchAt s = some (m, r)) : m.2.2 ≠ [] := by
  rw [p3MatchAt] at h
  cases hn : numToken s with
  | none => rw [hn] at h; simp at h
  | some nr =>
    rw [hn] at h
    obtain ⟨num, r1⟩ := nr
    dsimp only at h
    cases hu : p3Unit (r1.dropWhile isSpaceChar) with
    | none => rw [hu] at h; simp at h
    | some uw =>
      rw [hu] at h
      obtain ⟨⟨u, w⟩, rest⟩ := uw
      dsimp only at h
      rw [Option.some.injEq, Prod.mk.injEq] at h
      rw [← h.1]
      exact p3Unit_word _ _ hu

theorem pattern1Facts_label (text : List Char) (p : String × Nat)
    (hp : p ∈ pattern1Facts text) : 2 ≤ p.1.length ∧ p.1.length ≤ 29 := by
  rw [pattern1Facts] at hp
  rcases List.mem_filterMap.mp hp with ⟨m, _, hm⟩
  dsimp only at hm
  split at hm
  · rename_i hc
    have hp1 : p = (String.mk (pyStrip m.1), natOfDigits m.2) :=
      ((Option.some.injEq _ _).mp hm).symm
    rw [hp1]
    simp only [stringMk_length]
    omega
  · simp at hm

theorem pattern2Facts_label (text : List Char) (p : String × Nat)
    (hp : p ∈ pattern2Facts text) : p.1 ≠ "" := by
  rw [pattern2Facts] at hp
  rcases List.mem_filterMap.mp hp with ⟨m, _, hm⟩
  dsimp only at hm
  split at hm
  · rename_i hc
    have hp1 : p = (String.mk (pyStrip m.1), _) := ((Option.some.injEq _ _).mp hm).symm
    rw [hp1]
    exact stringMk_ne_empty _ hc.1
  · simp at hm

theorem pattern3Facts_label (text : List Char) (p : String × Nat)
    (hp : p ∈ pattern3Facts text) : p.1 ≠ "" := by
  rw [pattern3Facts] at hp
  rcases List.mem_filterMap.mp hp with ⟨m, hmem, hm⟩
  have hmem2 : m ∈ scanAll p3MatchAt text.length text := List.take_subset _ _ hmem
  rcases mem_scanAll _ _ _ _ hmem2 with ⟨t, r, ht⟩
  have hw : m.2.2 ≠ [] := p3MatchAt_word t m r ht
  dsimp only at hm
  split at hm
  · simp at hm
  · split at hm
    · have hp1 : p = (String.mk (pyCapitalize m.2.2), (pyNum m.1).1) :=
        ((Option.some.injEq _ _).mp hm).symm
      rw [hp1]
      exact stringMk_ne_empty _ (pyCapitalize_ne_nil _ hw)
    · simp at hm

theorem pattern4Facts_label (text : List Char) (p : String × Nat)
    (hp : p ∈ pattern4Facts text) : p.1 ≠ "" := by
  rw [pattern4Facts] at hp
  rcases List.mem_filterMap.mp hp with ⟨m, _, hm⟩
  dsimp only at hm
  split at hm <;> split at hm <;> (try split at hm) <;>
    first
      | (rename_i hc
         rw [Option.some.injEq] at hm
         rw [← hm]
         refine stringMk_ne_empty _ ?_
         intro hnil
         rw [hnil] at hc
         simp at hc)
      | simp at hm

/-- Claim C4 counterexample: pattern 4 imposes no upper bound on label
length, so the extractor can return a 32-character label. -/
theorem extract_long_label_counterexample :
    extract_numbers_from_text "Abcdefghijklmnopqrstuvwxyzabcdef: 7" =
      [("Abcdefghijklmnopqrstuvwxyzabcdef", 7)] ∧
    ("Abcdefghijklmnopqrstuvwxyzabcdef" : String).length = 32 := by
  exact ⟨by decide, by decide⟩

/-- Claim C4 (amended): every fact returned by the extractor has a non-empty
label, and facts produced by the labelled-medal-count family (pattern 1)
additionally have labels of length between 2 and 29; the other families
impose no upper bound on label length. -/
theorem extract_labels_nonempty (text : String) :
    (∀ p, p ∈ extract_numbers_from_text text → p.1 ≠ "") ∧
    (∀ p, p ∈ pattern1Facts text.data → 2 ≤ p.1.length ∧ p.1.length ≤ 29) := by
  constructor
  · intro p hp
    have h1 : p ∈ candidateFacts text.data := by
      have h2 : p ∈ dedupFirst [] (candidateFacts text.data) := by
        rw [extract_numbers_from_text] at hp
        exact List.take_subset _ _ hp
      exact (dedupFirst_sublist _ _).subset h2
    rw [candidateFacts] at h1
    rcases List.mem_append.mp h1 with h | h4
    · rcases List.mem_append.mp h with h | h3
      · rcases List.mem_append.mp h with h1f | h2f
        · have := (pattern1Facts_label _ p h1f).1
          intro hc
          rw [hc] at this
          simp at this
        · exact pattern2Facts_label _ p h2f
      · exact pattern3Facts_label _ p h3
    · exact pattern4Facts_label _ p h4
  · exact fun p hp => pattern1Facts_label _ p hp

theorem extract_labels_nonempty_witness :
    ((("USA", 10) : String × Nat).1 ≠ "") ∧
    (2 ≤ (("USA", 10) : String × Nat).1.length ∧ (("USA", 10) : String × Nat).1.length ≤ 29) :=
  ⟨(extract_labels_nonempty "USA: 10 medals").1 ("USA", 10) (by decide),
   (extract_labels_nonempty "USA: 10 medals").2 ("USA", 10) (by decide)⟩

/-! ### Planner soundness and the deck length -/

theorem plannerBars_points (cd : List (String × Nat)) (p : String × List (String × Nat))
    (hp : p ∈ plannerBars cd) : 2 ≤ p.2.length := by
  rw [plannerBars] at hp
  split at hp
  · rename_i hc
    rcases List.mem_singleton.mp hp with rfl
    simp only [List.length_take]
    omega
  · simp at hp

theorem plannerPies_points (text : String) (p : String × List (String × Nat))
    (hp : p ∈ plannerPies text) : p.2.length = 3 := by
  rw [plannerPies] at hp
  cases hms : medalSearch text.data with
  | none => rw [hms] at hp; simp at hp
  | some gsb =>
    rw [hms] at hp
    rcases List.mem_singleton.mp hp with rfl
    rfl

theorem plannerTables_points (cd : List (String × Nat)) (p : String × List (List String))
    (hp : p ∈ plannerTables cd) : 2 ≤ p.2.length := by
  rw [plannerTables] at hp
  split at hp
  · rename_i hc
    rcases List.mem_singleton.mp hp with rfl
    simp only [List.length_cons, List.length_map, List.length_take]
    omega
  · simp at hp

theorem parse_not_truthy (rd : Option String) (h : truthy rd = false) :
    parse_research_for_visuals rd = emptyVisuals := by
  rw [parse_research_for_visuals, h]
  rfl

theorem parse_bar_points (rd : Option String) (p : String × List (String × Nat))
    (hp : p ∈ (parse_research_for_visuals rd).bar_charts) : 2 ≤ p.2.length := by
  rw [parse_research_for_visuals] at hp
  split at hp
  · simp [emptyVisuals] at hp
  · dsimp only at hp
    split at hp
    · simp [emptyVisuals] at hp
    · exact plannerBars_points _ _ hp

theorem parse_pie_points (rd : Option String) (p : String × List (String × Nat))
    (hp : p ∈ (parse_research_for_visuals rd).pie_charts) : p.2.length = 3 := by
  rw [parse_research_for_visuals] at hp
  split at hp
  · simp [emptyVisuals] at hp
  · dsimp only at hp
    split at hp
    · simp [emptyVisuals] at hp
    · exact plannerPies_points _ _ hp

theorem parse_table_points (rd : Option String) (p : String × List (List String))
    (hp : p ∈ (parse_research_for_visuals rd).tables) : 2 ≤ p.2.length := by
  rw [parse_research_for_visuals] at hp
  split at hp
  · simp [emptyVisuals] at hp
  · dsimp only at hp
    split at hp
    · simp [emptyVisuals] at hp
    · exact plannerTables_points _ _ hp

theorem length_filterMap_all_some {α β : Type} (f : α → Option β) :
    ∀ l : List α, (∀ x ∈ l, (f x).isSome) → (l.filterMap f).length = l.length := by
  intro l
  induction l with
  | nil => intro; simp
  | cons a t ih =>
    intro h
    cases hf : f a with
    | none =>
      have := h a (List.mem_cons_self _ _)
      rw [hf] at this
      simp at this
    | some b =>
      have ih2 := ih (fun x hx => h x (List.mem_cons_of_mem _ hx))
      simp [List.filterMap_cons, hf, ih2]

/-- The deck built by a successful `create_powerpoint` call has exactly
`title? + findings? + artifacts + num_slides` slides. -/
theorem create_powerpoint_deck_length (topic : String) (num : Nat) (incl : Bool)
    (outdir : String) (rd : Option String) (now : String)
    (h1 : ¬ (num < 1 ∨ 20 < num)) (h2 : ¬ (topic = "" ∨ pyStrip topic.data = [])) :
    (create_powerpoint topic num incl outdir rd now).slides.length =
      (if incl then 1 else 0) + (if truthy rd then 1 else 0) + visualArtifactCount rd + num := by
  rw [create_powerpoint, if_neg h1, if_neg h2]
  dsimp only
  rw [List.length_append, List.length_append, List.length_append, List.length_append,
    List.length_append]
  have hbar :
      (((if truthy rd then parse_research_for_visuals rd else emptyVisuals)).bar_charts.filterMap
        fun p => create_bar_chart_slide p.1 p.2).length =
      (parse_research_for_visuals rd).bar_charts.length := by
    cases ht : truthy rd with
    | false => rw [if_neg (by simp [ht]), parse_not_truthy rd ht]; rfl
    | true =>
      rw [if_pos (by simp [ht])]
      apply length_filterMap_all_some
      intro p hp
      have := parse_bar_points rd p hp
      rw [create_bar_chart_slide, if_neg (by omega)]
      rfl
  have hpie :
      (((if truthy rd then parse_research_for_visuals rd else emptyVisuals)).pie_charts.filterMap
        fun p => create_pie_chart_slide p.1 p.2).length =
      (parse_research_for_visuals rd).pie_charts.length := by
    cases ht : truthy rd with
    | false => rw [if_neg (by simp [ht]), parse_not_truthy rd ht]; rfl
    | true =>
      rw [if_pos (by simp [ht])]
      apply length_filterMap_all_some
      intro p hp
      have := parse_pie_points rd p hp
      rw [create_pie_chart_slide, if_neg (by omega)]
      rfl
  have htab :
      (((if truthy rd then parse_research_for_visuals rd else emptyVisuals)).tables.filterMap
        fun p => create_table_slide p.1 p.2).length =
      (parse_research_for_visuals rd).tables.length := by
    cases ht : truthy rd with
    | false => rw [if_neg (by simp [ht]), parse_not_truthy rd ht]; rfl
    | true =>
      rw [if_pos (by simp [ht])]
      apply length_filterMap_all_some
      intro p hp
      have := parse_table_points rd p hp
      rw [create_table_slide, if_neg (by omega)]
      rfl
  rw [hbar, hpie, htab]
  have hcontent : (contentSlides topic (truthy rd)
      (if truthy rd then flatBullets (rdText rd) else []) num).length = num := by
    rw [contentSlides, List.length_map, List.length_range]
  rw [hcontent]
  have htitle : (if incl then
      [(⟨topic, "Generated on " ++ now ++
          (if truthy rd then " | Research-Enhanced Presentation" else ""), [], none⟩ : Slide)]
    else []).length = if incl then 1 else 0 := by
    cases incl <;> rfl
  have hfind : (if truthy rd then [mkFindingsSlide (rdText rd)] else []).length =
      if truthy rd then 1 else 0 := by
    cases truthy rd <;> rfl
  rw [htitle, hfind, visualArtifactCount]
  omega

/-- Claim C1: for every valid input (topic non-empty after stripping,
`num_slides` in `[1,20]`), the number of slides in the produced deck equals
`(1 if include_title_slide) + (1 if research_data is truthy) +
|visual artifacts| + num_slides`.  "Present" research data is Python
truthiness: `None` and the empty string count as absent. -/
theorem create_powerpoint_slide_count (topic : String) (num : Nat) (incl : Bool)
    (outdir : String) (rd : Option String) (now : String)
    (htopic : pyStrip topic.data ≠ []) (hlo : 1 ≤ num) (hhi : num ≤ 20) :
    (create_powerpoint topic num incl outdir rd now).slides.length =
      (if incl then 1 else 0) + (if truthy rd then 1 else 0) + visualArtifactCount rd + num := by
  apply create_powerpoint_deck_length
  · omega
  · rintro (rfl | h)
    · exact htopic rfl
    · exact htopic h

theorem create_powerpoint_slide_count_witness :
    (create_powerpoint "Topic" 1 true "./output" none "2026-10-12").slides.length =
      (if true then 1 else 0) + (if truthy none then 1 else 0) + visualArtifactCount none + 1 :=
  create_powerpoint_slide_count "Topic" 1 true "./output" none "2026-10-12"
    (by decide) (by decide) (by decide)

/-- Claim C5 (code bug): a `TW`-suffixed quantity matches pattern 3 (here
with unit capture `TW` and noun `capacity`), but the extractor emits no fact
for it — the converted value and relabelled unit are computed into dead
local variables while the `append` sits in the `elif` branch. -/
theorem tw_match_emits_no_fact :
    scanAll p3MatchAt "4,448 TW capacity".data.length "4,448 TW capacity".data =
      [("4,448".data, "TW".data, "capacity".data)] ∧
    pattern3Facts "4,448 TW capacity".data = [] ∧
    extract_numbers_from_text "4,448 TW capacity" = [] :=
  ⟨by decide, by decide, by decide⟩

/-- Claim C7: an out-of-range `num_slides` or an empty/whitespace-only topic
yields a failure result naming the invalid input, with no slides and no
file written. -/
theorem create_powerpoint_invalid_input (topic : String) (num : Nat) (incl : Bool)
    (outdir : String) (rd : Option String) (now : String)
    (h : topic = "" ∨ pyStrip topic.data = [] ∨ num < 1 ∨ 20 < num) :
    (create_powerpoint topic num incl outdir rd now).success = false ∧
    (create_powerpoint topic num incl outdir rd now).slides = [] ∧
    (create_powerpoint topic num incl outdir rd now).filepath = none ∧
    ((create_powerpoint topic num incl outdir rd now).error =
        some "num_slides must be between 1 and 20" ∨
      (create_powerpoint topic num incl outdir rd now).error = some "topic cannot be empty") := by
  by_cases h1 : num < 1 ∨ 20 < num
  · rw [create_powerpoint, if_pos h1]
    exact ⟨rfl, rfl, rfl, Or.inl rfl⟩
  · have h2 : topic = "" ∨ pyStrip topic.data = [] := by
      rcases h with h | h | h | h
      · exact Or.inl h
      · exact Or.inr h
      · exact absurd (Or.inl h) h1
      · exact absurd (Or.inr h) h1
    rw [create_powerpoint, if_neg h1, if_pos h2]
    exact ⟨rfl, rfl, rfl, Or.inr rfl⟩

theorem create_powerpoint_invalid_input_witness :
    ((create_powerpoint "" 5 true "./output" none "now").success = false ∧
      (create_powerpoint "" 5 true "./output" none "now").slides = [] ∧
      (create_powerpoint "" 5 true "./output" none "now").filepath = none ∧
      ((create_powerpoint "" 5 true "./output" none "now").error =
          some "num_slides must be between 1 and 20" ∨
        (create_powerpoint "" 5 true "./output" none "now").error =
          some "topic cannot be empty")) ∧
    ((create_powerpoint "X" 21 true "./output" none "now").success = false ∧
      (create_powerpoint "X" 21 true "./output" none "now").slides = [] ∧
      (create_powerpoint "X" 21 true "./output" none "now").filepath = none ∧
      ((create_powerpoint "X" 21 true "./output" none "now").error =
          some "num_slides must be between 1 and 20" ∨
        (create_powerpoint "X" 21 true "./output" none "now").error =
          some "topic cannot be empty")) :=
  ⟨create_powerpoint_invalid_input "" 5 true "./output" none "now" (Or.inl rfl),
   create_powerpoint_invalid_input "X" 21 true "./output" none "now"
     (Or.inr (Or.inr (Or.inr (by decide))))⟩

/-- Claim C9: an empty research string behaves exactly like `None` — every
branch of `create_powerpoint` tests Python truthiness, so the whole result
(deck included) is identical, and the visual planner returns all-empty
artifact sets. -/
theorem create_powerpoint_empty_research (topic : String) (num : Nat) (incl : Bool)
    (outdir : String) (now : String) :
    create_powerpoint topic num incl outdir (some "") now =
      create_powerpoint topic num incl outdir none now ∧
    parse_research_for_visuals (some "") = emptyVisuals := by
  constructor
  · rw [create_powerpoint, create_powerpoint]
    by_cases h1 : num < 1 ∨ 20 < num
    · rw [if_pos h1, if_pos h1]
    · rw [if_neg h1, if_neg h1]
      by_cases h2 : topic = "" ∨ pyStrip topic.data = []
      · rw [if_pos h2, if_pos h2]
      · rw [if_neg h2, if_neg h2]
        rfl
  · rfl

/-- Claim C10: the reported `total_slides` counts only the content slides
plus the optional title slide; when research data is present the deck that
was actually saved is strictly larger. -/
theorem total_slides_reported (topic : String) (num : Nat) (incl : Bool)
    (outdir : String) (rd : Option String) (now : String)
    (htopic : pyStrip topic.data ≠ []) (hlo : 1 ≤ num) (hhi : num ≤ 20) :
    (create_powerpoint topic num incl outdir rd now).total_slides =
      some (num + if incl then 1 else 0) ∧
    (truthy rd = true →
      num + (if incl then 1 else 0) <
        (create_powerpoint topic num incl outdir rd now).slides.length) := by
  have h1 : ¬ (num < 1 ∨ 20 < num) := by omega
  have h2 : ¬ (topic = "" ∨ pyStrip topic.data = []) := by
    rintro (rfl | h)
    · exact htopic rfl
    · exact htopic h
  constructor
  · rw [create_powerpoint, if_neg h1, if_neg h2]
  · intro ht
    rw [create_powerpoint_deck_length topic num incl outdir rd now h1 h2, ht]
    cases incl <;> simp <;> omega

theorem total_slides_reported_witness :
    ((create_powerpoint "Topic" 1 true "./output" (some "abc") "now").total_slides =
      some (1 + if true then 1 else 0)) ∧
    (1 + (if true then 1 else 0) <
      (create_powerpoint "Topic" 1 true "./output" (some "abc") "now").slides.length) :=
  ⟨(total_slides_reported "Topic" 1 true "./output" (some "abc") "now"
      (by decide) (by decide) (by decide)).1,
   (total_slides_reported "Topic" 1 true "./output" (some "abc") "now"
      (by decide) (by decide) (by decide)).2 (by decide)⟩

/-! ### Bullet distribution (claim C2) -/

theorem take_min_eq {α : Type} (l : List α) (x : Nat) : l.take (min x l.length) = l.take x := by
  rcases Nat.le_total x l.length with h | h
  · rw [Nat.min_eq_left h]
  · rw [Nat.min_eq_right h, List.take_of_length_le h, List.take_of_length_le (Nat.le_refl _)]

theorem slice_eq {α : Type} (l : List α) (a b : Nat) :
    (l.take (min (a + b) l.length)).drop a = (l.drop a).take b := by
  rw [take_min_eq, List.drop_take]
  congr 1
  omega

/-- The Python slice `bullets[start:end]` with `end = min(start+budget, len)`
is the `budget`-sized window at offset `start`. -/
theorem contentSlideBullets_eq (bullets : List String) (n i : Nat) :
    contentSlideBullets bullets n i =
      (bullets.drop ((i - 1) * max 3 (bullets.length / n))).take
        (max 3 (bullets.length / n)) := by
  rw [contentSlideBullets]
  exact slice_eq bullets _ _

/-- Claim C2: content slide `i` (1-indexed) of the composed deck receives
`bullets[start:end]` with `budget = max(3, len(bullets) // num_slides)`,
`start = (i-1)*budget`, `end = min(start+budget, len)`; with 10 bullets and
3 slides the slides get `bullets[0:3]`, `bullets[3:6]`, `bullets[6:9]` and
bullet 9 is dropped. -/
theorem bullet_distribution :
    (∀ (topic : String) (bullets : List String) (num i : Nat),
      1 ≤ i → i ≤ num → contentSlideBullets bullets num i ≠ [] →
      ((contentSlides topic true bullets num).get? (i - 1)).map slideBody =
          some (contentSlideBullets bullets num i) ∧
        contentSlideBullets bullets num i =
          (bullets.drop ((i - 1) * max 3 (bullets.length / num))).take
            (max 3 (bullets.length / num))) ∧
    (∀ bullets : List String, bullets.length = 10 →
      contentSlideBullets bullets 3 1 = bullets.take 3 ∧
        contentSlideBullets bullets 3 2 = (bullets.drop 3).take 3 ∧
        contentSlideBullets bullets 3 3 = (bullets.drop 6).take 3 ∧
        contentSlideBullets bullets 3 1 ++ contentSlideBullets bullets 3 2 ++
          contentSlideBullets bullets 3 3 = bullets.take 9) := by
  constructor
  · intro topic bullets num i h1 h2 hne
    have hbul : bullets ≠ [] := by
      intro hb
      apply hne
      rw [hb]
      simp [contentSlideBullets]
    constructor
    · rw [contentSlides, List.get?_map, List.get?_range (by omega : i - 1 < num)]
      have hi : i - 1 + 1 = i := by omega
      dsimp only [Option.map_some']
      rw [hi, mkContentSlide, if_pos ⟨rfl, hbul⟩]
      cases hsl : contentSlideBullets bullets num i with
      | nil => exact absurd hsl hne
      | cons b bs =>
        dsimp only
        rw [Option.some.injEq, slideBody]
        simp only [List.map_map]
        have hcomp : (Prod.fst ∘ fun x : String => (x, (0 : Nat))) = id := rfl
        rw [hcomp, List.map_id]
    · exact contentSlideBullets_eq bullets num i
  · intro bullets hlen
    have hb : max 3 (bullets.length / 3) = 3 := by rw [hlen]; decide
    have c1 : contentSlideBullets bullets 3 1 = bullets.take 3 := by
      rw [contentSlideBullets_eq, hb]
      simp
    have c2 : contentSlideBullets bullets 3 2 = (bullets.drop 3).take 3 := by
      rw [contentSlideBullets_eq, hb]
    have c3 : contentSlideBullets bullets 3 3 = (bullets.drop 6).take 3 := by
      rw [contentSlideBullets_eq, hb]
    refine ⟨c1, c2, c3, ?_⟩
    rw [c1, c2, c3]
    rw [show (9 : Nat) = 3 + 6 from rfl, List.take_add,
      show (6 : Nat) = 3 + 3 from rfl, List.take_add, List.drop_drop]
    rw [List.append_assoc]

theorem bullet_distribution_witness :
    (((contentSlides "T" true ["alpha", "beta", "gamma", "delta"] 1).get? (1 - 1)).map slideBody =
        some (contentSlideBullets ["alpha", "beta", "gamma", "delta"] 1 1) ∧
      contentSlideBullets ["alpha", "beta", "gamma", "delta"] 1 1 =
        ((["alpha", "beta", "gamma", "delta"] : List String).drop
            ((1 - 1) * max 3 ((["alpha", "beta", "gamma", "delta"] : List String).length / 1))).take
          (max 3 ((["alpha", "beta", "gamma", "delta"] : List String).length / 1))) ∧
    (contentSlideBullets ["b0", "b1", "b2", "b3", "b4", "b5", "b6", "b7", "b8", "b9"] 3 1 ++
        contentSlideBullets ["b0", "b1", "b2", "b3", "b4", "b5", "b6", "b7", "b8", "b9"] 3 2 ++
        contentSlideBullets ["b0", "b1", "b2", "b3", "b4", "b5", "b6", "b7", "b8", "b9"] 3 3 =
      (["b0", "b1", "b2", "b3", "b4", "b5", "b6", "b7", "b8", "b9"] : List String).take 9) :=
  ⟨bullet_distribution.1 "T" ["alpha", "beta", "gamma", "delta"] 1 1
      (by decide) (by decide) (by decide),
   (bullet_distribution.2 ["b0", "b1", "b2", "b3", "b4", "b5", "b6", "b7", "b8", "b9"]
      (by decide)).2.2.2⟩

/-! ### The pie chart emission (claim C6) -/

/-- Claim C6 counterexample: the raw text matches the gold/silver/bronze
pattern, yet no pie chart is emitted, because the whole chart extraction
sits under `if chart_data:` and the fact extractor returns nothing here. -/
theorem pie_requires_facts_counterexample :
    medalSearch "7 gold 6 silver 5 bronze".data = some (7, 6, 5) ∧
    ("7 gold 6 silver 5 bronze" : String) ≠ "" ∧
    extract_numbers_from_text "7 gold 6 silver 5 bronze" = [] ∧
    (parse_research_for_visuals (some "7 gold 6 silver 5 bronze")).pie_charts = [] :=
  ⟨by decide, by decide, by decide, by decide⟩

/-- Claim C6 (amended): for every non-empty research text for which the fact
extractor returns at least one fact and the gold/silver/bronze pattern
matches, the planner emits exactly one pie chart titled "Medal Type
Distribution" with the three categories of the first match. -/
theorem pie_chart_emission (text : String) (h0 : text ≠ "")
    (h1 : extract_numbers_from_text text ≠ []) (g s b : Nat)
    (h2 : medalSearch text.data = some (g, s, b)) :
    (parse_research_for_visuals (some text)).pie_charts =
      [("Medal Type Distribution", [("Gold", g), ("Silver", s), ("Bronze", b)])] := by
  have ht : truthy (some text) = true := by
    simp only [truthy, Bool.not_eq_true']
    exact beq_false_of_ne h0
  rw [parse_research_for_visuals, ht]
  rw [if_neg (by simp)]
  simp only [rdText]
  rw [if_neg h1]
  dsimp only
  rw [plannerPies, h2]

theorem pie_chart_emission_witness :
    (parse_research_for_visuals (some "USA: 10 medals. 7 gold 6 silver 5 bronze")).pie_charts =
      [("Medal Type Distribution", [("Gold", 7), ("Silver", 6), ("Bronze", 5)])] :=
  pie_chart_emission "USA: 10 medals. 7 gold 6 silver 5 bronze" (by decide) (by decide)
    7 6 5 (by decide)

/-! ### The findings slide (claim C8) -/

/-- Claim C8 counterexample: the primary text of the findings slide is the first
stripped non-`#` line verbatim (bullet marker included), while the
flat-bullet fallback extraction strips the marker — so the slide is not
populated from the flat-bullet extraction. -/
theorem findings_slide_counterexample :
    flatBullets "- Alpha beta gamma delta epsilon" = ["Alpha beta gamma delta epsilon"] ∧
    (mkFindingsSlide "- Alpha beta gamma delta epsilon").primary =
      "- Alpha beta gamma delta epsilon" ∧
    (create_powerpoint "T" 1 true "./output"
        (some "- Alpha beta gamma delta epsilon") "now").slides.get? 1 =
      some (mkFindingsSlide "- Alpha beta gamma delta epsilon") ∧
    ("- Alpha beta gamma delta epsilon" : String) ≠ "Alpha beta gamma delta epsilon" :=
  ⟨by decide, by decide, by decide, by decide⟩

/-- Claim C8 (amended): for truthy research data the deck contains the
"Key Research Findings" slide right after the optional title slide; it is
populated from the stripped non-empty non-`#` lines of the research text —
the first such line verbatim as primary text, and of the next seven lines
those not starting with `**` as paragraphs with `**`/`- `/`* ` occurrences
removed, at indent level 0 when the line starts with `-` or `*`, else 1;
with no such lines a fixed fallback sentence is used. -/
theorem findings_slide_content (topic : String) (num : Nat) (incl : Bool)
    (outdir : String) (text now : String) (htopic : pyStrip topic.data ≠ [])
    (hlo : 1 ≤ num) (hhi : num ≤ 20) (ht : text ≠ "") :
    (create_powerpoint topic num incl outdir (some text) now).slides.get?
        (if incl then 1 else 0) = some (mkFindingsSlide text) ∧
    (∀ h ts, researchLines text = h :: ts →
      mkFindingsSlide text =
        ⟨"Key Research Findings", h, (ts.take 7).filterMap findingsPara, none⟩) ∧
    (researchLines text = [] →
      (mkFindingsSlide text).primary =
        "Research findings incorporated throughout presentation") := by
  have h1 : ¬ (num < 1 ∨ 20 < num) := by omega
  have h2 : ¬ (topic = "" ∨ pyStrip topic.data = []) := by
    rintro (rfl | h)
    · exact htopic rfl
    · exact htopic h
  have htr : truthy (some text) = true := by
    simp only [truthy, Bool.not_eq_true']
    exact beq_false_of_ne ht
  refine ⟨?_, ?_, ?_⟩
  · rw [create_powerpoint, if_neg h1, if_neg h2]
    dsimp only
    rw [htr]
    cases incl
    · simp [rdText]
    · simp [rdText]
  · intro h ts hr
    rw [mkFindingsSlide, hr]
  · intro hr
    rw [mkFindingsSlide, hr]

theorem findings_slide_content_witness :
    ((create_powerpoint "T" 1 true "./output"
        (some "- Alpha beta gamma delta epsilon") "now").slides.get?
          (if true then 1 else 0) =
      some (mkFindingsSlide "- Alpha beta gamma delta epsilon")) ∧
    (mkFindingsSlide "- Alpha beta gamma delta epsilon" =
      ⟨"Key Research Findings", "- Alpha beta gamma delta epsilon", [], none⟩) :=
  ⟨(findings_slide_content "T" 1 true "./output" "- Alpha beta gamma delta epsilon" "now"
      (by decide) (by decide) (by decide) (by decide)).1,
   (findings_slide_content "T" 1 true "./output" "- Alpha beta gamma delta epsilon" "now"
      (by decide) (by decide) (by decide) (by decide)).2.1
     "- Alpha beta gamma delta epsilon" [] (by decide)⟩

end PptAgent






